import Mathlib

/-!
Shallow embedding of `scripts/validate_migration.py` (migration-validation
engine of the aws-dms-poc repository).

Modelling conventions:
* A live database connection is modelled as a `DB`: a bundle of pure oracles,
  one per SQL query the validator issues (`get_tables`, `get_row_count`,
  `get_table_schema`, `get_constraints`, the primary-key lookup inside
  `get_data_checksum`, and the row-sample fetch).  A query that raises a
  Python exception is an oracle returning `Except.error msg`.
* Machine integers do not overflow here (row counts are Python ints), so
  counts are `Nat`.
* `hashlib.md5(...).hexdigest()` is an external library function; it is
  modelled as an arbitrary function `md5 : String → String` passed as a
  parameter.  `str(rows)` (the Python textual serialization of the fetched
  row tuples) is modelled by `pyStr` over rows that the fetch oracle already
  delivers as strings; no claim depends on the exact rendering, only on
  equality/determinism.
* Python `set()` is modelled by `List.dedup`; the claims are order- and
  duplicate-insensitive.
-/

namespace ValidateMigration

/-- Model of the dynamically-typed `source_value` / `target_value` slots of
the Python `ValidationResult` dataclass: in the script they only ever hold
`None` or a list of strings. -/
inductive PyVal where
  | none : PyVal
  | strList : List String → PyVal
  deriving DecidableEq, Repr

/-- The `ValidationResult` dataclass of `validate_migration.py`. -/
structure ValidationResult where
  check_name : String
  passed : Bool
  source_value : PyVal
  target_value : PyVal
  message : String
  deriving DecidableEq, Repr

/-- One row of `get_table_schema`: name, data_type, character_maximum_length,
is_nullable, column_default (`is_nullable` is the string `YES`/`NO` as
delivered by information_schema). -/
structure Column where
  name : String
  type : String
  max_length : Option Nat
  nullable : String
  dflt : Option String
  deriving DecidableEq, Repr

/-- One row of `get_constraints`: constraint_name, constraint_type,
column_name. -/
structure Constraint where
  name : String
  type : String
  column : String
  deriving DecidableEq, Repr

/-- The shape of the sampling query built by `get_data_checksum`:
either `SELECT * FROM table ORDER BY pk LIMIT limit` or
`SELECT * FROM table LIMIT limit` (all columns in both cases). -/
inductive SampleQuery where
  | ordered : String → String → Nat → SampleQuery
  | unordered : String → Nat → SampleQuery
  deriving DecidableEq, Repr

/-- A database connection, modelled as pure query oracles.  `pkColumns`
models the `pg_index`/`pg_attribute` primary-key lookup inside
`get_data_checksum`: the list of attribute names returned (one per column
of the primary key; empty when the table has no primary key).  `fetch`
models executing the sampling query and fetching all rows, each row
already rendered to its textual representation. -/
structure DB where
  tables : Except String (List String)
  rowCount : String → Except String Nat
  schema : String → Except String (List Column)
  constraints : String → Except String (List Constraint)
  pkColumns : String → Except String (List String)
  fetch : SampleQuery → Except String (List String)

/-- Value of an `Except`, with a default for the error case (models the
Python `except: value = d` fallback idiom). -/
def exceptD {α : Type} (d : α) : Except String α → α
  | .ok a => a
  | .error _ => d

/-- Whether an `Except` is a success. -/
def isOkB {α : Type} : Except String α → Bool
  | .ok _ => true
  | .error _ => false

/-- Length of the string-list payload of a `PyVal` (0 for `None`). -/
def pyLen : PyVal → Nat
  | .none => 0
  | .strList l => l.length

/-- Model of Python `str(rows)` for the fetched row sample: the rows (already
textual) joined in fetch order inside list brackets.  The exact rendering of
the external driver's tuples is abstracted; only equality matters. -/
def pyStr (rows : List String) : String :=
  "[" ++ String.intercalate ", " rows ++ "]"

/-- The query built by `get_data_checksum` from the rows returned by the
primary-key lookup: Python does `pk_result = cursor.fetchone()` —
the FIRST returned row — and takes the `ORDER BY` branch whenever that is
not `None`, i.e. whenever at least one primary-key column row came back. -/
def buildSampleQuery (pkRows : List String) (table : String) (lim : Nat) :
    SampleQuery :=
  match pkRows.head? with
  | some pk => .ordered table pk lim
  | Option.none => .unordered table lim

/-- `DatabaseValidator.get_data_checksum`: look up the primary-key columns,
build the sampling query, fetch the rows and hash their serialization. -/
def get_data_checksum (md5 : String → String) (db : DB) (table : String)
    (lim : Nat) : Except String String := do
  let pkRows ← db.pkColumns table
  let rows ← db.fetch (buildSampleQuery pkRows table lim)
  pure (md5 (pyStr rows))

/-- `missing_in_target = source_tables - target_tables` (set difference,
on the deduplicated table lists). -/
def missingTables (sts tts : List String) : List String :=
  sts.filter (fun x => !(tts.contains x))

/-- `extra_in_target = target_tables - source_tables`. -/
def extraTables (sts tts : List String) : List String :=
  tts.filter (fun x => !(sts.contains x))

/-- The message selection of `validate_table_existence`: missing tables win,
else extra tables are mentioned, else the all-present message. -/
def tableExistenceMessage (sts tts : List String) : String :=
  let missing := missingTables sts tts
  let extra := extraTables sts tts
  if !missing.isEmpty then
    "Missing tables in target: " ++ String.intercalate ", " missing
  else if !extra.isEmpty then
    "Extra tables in target (OK): " ++ String.intercalate ", " extra
  else
    "All " ++ toString sts.length ++ " tables present in both databases"

/-- `DatabaseValidator.validate_table_existence`.  Raises (propagates) if
either `get_tables` query fails. -/
def validate_table_existence (s t : DB) : Except String ValidationResult := do
  let sraw ← s.tables
  let traw ← t.tables
  let source_tables := sraw.dedup
  let target_tables := traw.dedup
  let missing := missingTables source_tables target_tables
  let passed := missing.length == 0
  pure { check_name := "Table Existence"
         passed := passed
         source_value := .strList source_tables
         target_value := .strList target_tables
         message := tableExistenceMessage source_tables target_tables }

/-- One iteration of the `validate_row_counts` loop: the source-side count
query is NOT guarded (its exception propagates), the target-side count query
is guarded and falls back to 0. -/
def rowCountLine (s t : DB) (tb : String) : Except String (Bool × String) := do
  let source_count ← s.rowCount tb
  let target_count := exceptD 0 (t.rowCount tb)
  let m := source_count == target_count
  let status := if m then "✓" else "✗"
  pure (m, status ++ " " ++ tb ++ ": " ++ toString source_count ++ " vs "
             ++ toString target_count)

/-- The common per-table loop of `validate_row_counts` / `validate_schemas` /
`validate_constraints`: run the line function on every table in order,
conjoining the match flags and collecting the detail lines; an exception from
a line aborts the remaining iterations (Python `for` over a raising body). -/
def checkLoop (line : String → Except String (Bool × String)) :
    List String → Except String (Bool × List String)
  | [] => pure (true, [])
  | tb :: rest => do
    let (m, d) ← line tb
    let (restAll, restDs) ← checkLoop line rest
    pure (m && restAll, d :: restDs)

/-- `DatabaseValidator.validate_row_counts`. -/
def validate_row_counts (s t : DB) : Except String ValidationResult := do
  let tables ← s.tables
  let (all_match, details) ← checkLoop (rowCountLine s t) tables
  pure { check_name := "Row Counts"
         passed := all_match
         source_value := .strList details
         target_value := .none
         message := if all_match then "All row counts match"
                    else "Row count mismatch detected" }

/-- The `source_cols` / `target_cols` dict comprehension of
`validate_schemas`: name → data_type, later duplicates overwriting earlier
ones (Python dict semantics). -/
def toDict (cols : List Column) : List (String × String) :=
  cols.map (fun c => (c.name, c.type))

/-- Lookup in a name→type dict built from an association list with
later-bindings-win (Python dict comprehension) semantics. -/
def dlookup (l : List (String × String)) (k : String) : Option String :=
  List.lookup k l.reverse

/-- Python `==` on the two dicts: same keys, same values. -/
def dictEqb (a b : List (String × String)) : Bool :=
  (a.map Prod.fst ++ b.map Prod.fst).all (fun k => dlookup a k == dlookup b k)

/-- Model of Python `str` on the symmetric-difference set of column names in
the schema-mismatch detail line (iteration order of the Python set is
abstracted to list order; no claim depends on this string). -/
def pySetStr (l : List String) : String :=
  "\x7b" ++ String.intercalate ", " l ++ "\x7d"

/-- One iteration of the `validate_schemas` loop: source-side introspection
unguarded, target-side guarded with fallback to the empty schema. -/
def schemaLine (s t : DB) (tb : String) : Except String (Bool × String) := do
  let source_schema ← s.schema tb
  let target_schema := exceptD [] (t.schema tb)
  let source_cols := toDict source_schema
  let target_cols := toDict target_schema
  if dictEqb source_cols target_cols then
    pure (true, "✓ " ++ tb ++ ": Schema matches ("
                ++ toString (source_cols.map Prod.fst).dedup.length
                ++ " columns)")
  else
    let diff_cols := missingTables (source_cols.map Prod.fst).dedup
                        (target_cols.map Prod.fst).dedup
                  ++ extraTables (source_cols.map Prod.fst).dedup
                        (target_cols.map Prod.fst).dedup
    pure (false, "✗ " ++ tb ++ ": Schema mismatch - diff columns: "
                 ++ pySetStr diff_cols)

/-- `DatabaseValidator.validate_schemas`. -/
def validate_schemas (s t : DB) : Except String ValidationResult := do
  let tables ← s.tables
  let (all_match, details) ← checkLoop (schemaLine s t) tables
  pure { check_name := "Schema Structure"
         passed := all_match
         source_value := .strList details
         target_value := .none
         message := if all_match then "All schemas match"
                    else "Schema differences detected" }

/-- Number of `PRIMARY KEY` constraint rows in an introspected constraint
list. -/
def pkCount (cs : List Constraint) : Nat :=
  (cs.filter (fun c => c.type == "PRIMARY KEY")).length

/-- One iteration of the `validate_constraints` loop: source-side
introspection unguarded, target-side guarded with fallback to the empty
constraint list; only the counts of PRIMARY KEY rows are compared. -/
def constraintLine (s t : DB) (tb : String) : Except String (Bool × String) := do
  let source_constraints ← s.constraints tb
  let target_constraints := exceptD [] (t.constraints tb)
  let pk_match := pkCount source_constraints == pkCount target_constraints
  if pk_match then
    pure (true, "✓ " ++ tb ++ ": Constraints present")
  else
    pure (false, "✗ " ++ tb ++ ": Primary key mismatch")

/-- `DatabaseValidator.validate_constraints`. -/
def validate_constraints (s t : DB) : Except String ValidationResult := do
  let tables ← s.tables
  let (all_match, details) ← checkLoop (constraintLine s t) tables
  pure { check_name := "Constraints"
         passed := all_match
         source_value := .strList details
         target_value := .none
         message := if all_match then "All constraints present"
                    else "Missing constraints detected" }

/-- One iteration of the `validate_data_integrity` loop: BOTH checksums run
inside the per-table `try`, so an exception on either side becomes a failed
detail line and the loop continues. -/
def integrityLine (md5 : String → String) (s t : DB) (sample_size : Nat)
    (tb : String) : Bool × String :=
  match (do
      let sc ← get_data_checksum md5 s tb sample_size
      let tc ← get_data_checksum md5 t tb sample_size
      pure (sc, tc) : Except String (String × String)) with
  | .ok (sc, tc) =>
    let m := sc == tc
    let status := if m then "✓" else "✗"
    (m, status ++ " " ++ tb ++ ": " ++ sc.take 8 ++ "... vs "
        ++ tc.take 8 ++ "...")
  | .error e => (false, "✗ " ++ tb ++ ": Error - " ++ e)

/-- `DatabaseValidator.validate_data_integrity`. -/
def validate_data_integrity (md5 : String → String) (s t : DB)
    (sample_size : Nat) : Except String ValidationResult := do
  let tables ← s.tables
  let lines := tables.map (integrityLine md5 s t sample_size)
  let all_match := lines.all (fun p => p.1)
  pure { check_name := "Data Integrity"
         passed := all_match
         source_value := .strList (lines.map (fun p => p.2))
         target_value := .none
         message := if all_match then "Data integrity verified"
                    else "Data integrity issues detected" }

/-- The per-check catch of `run_all_validations`: a raising check degrades to
a single failed result named after the check, carrying the exception's
message. -/
def runCheck (name : String) : Except String ValidationResult →
    ValidationResult
  | .ok r => r
  | .error e =>
    { check_name := name, passed := false, source_value := .none,
      target_value := .none, message := "Error: " ++ e }

/-- `DatabaseValidator.run_all_validations`: the five checks in fixed order,
each one caught and degraded by `runCheck`; the results are appended to the
validator's accumulated `self.results` list (`acc`), and the whole list is
returned. -/
def run_all_validations (md5 : String → String) (acc : List ValidationResult)
    (s t : DB) : List ValidationResult :=
  acc ++
    [ runCheck "Table Existence" (validate_table_existence s t),
      runCheck "Row Counts" (validate_row_counts s t),
      runCheck "Schema Structure" (validate_schemas s t),
      runCheck "Constraints" (validate_constraints s t),
      runCheck "Data Integrity" (validate_data_integrity md5 s t 1000) ]

/-- The exit-code computation at the end of `main`:
`sys.exit(0 if all(r.passed for r in results) else 1)`. -/
def exitCode (results : List ValidationResult) : Nat :=
  if results.all (fun r => r.passed) then 0 else 1

/-- The exit code of a completed run of `main` on a fresh validator
(`self.results` starts empty). -/
def mainExitCode (md5 : String → String) (s t : DB) : Nat :=
  exitCode (run_all_validations md5 [] s t)

/-- A database whose every query succeeds with an empty answer; used as a
base for concrete instances in witnesses. -/
def dbEmpty : DB :=
  { tables := .ok [], rowCount := fun _ => .ok 0, schema := fun _ => .ok [],
    constraints := fun _ => .ok [], pkColumns := fun _ => .ok [],
    fetch := fun _ => .ok [] }

/-- Success-path value of `rowCountLine`. -/
def rowCountLinePure (s t : DB) (tb : String) : Bool × String :=
  let source_count := exceptD 0 (s.rowCount tb)
  let target_count := exceptD 0 (t.rowCount tb)
  let m := source_count == target_count
  (m, (if m then "✓" else "✗") ++ " " ++ tb ++ ": "
      ++ toString source_count ++ " vs " ++ toString target_count)

/-- Success-path value of `schemaLine`. -/
def schemaLinePure (s t : DB) (tb : String) : Bool × String :=
  let source_cols := toDict (exceptD [] (s.schema tb))
  let target_cols := toDict (exceptD [] (t.schema tb))
  if dictEqb source_cols target_cols then
    (true, "✓ " ++ tb ++ ": Schema matches ("
           ++ toString (source_cols.map Prod.fst).dedup.length
           ++ " columns)")
  else
    (false, "✗ " ++ tb ++ ": Schema mismatch - diff columns: "
            ++ pySetStr (missingTables (source_cols.map Prod.fst).dedup
                            (target_cols.map Prod.fst).dedup
                         ++ extraTables (source_cols.map Prod.fst).dedup
                            (target_cols.map Prod.fst).dedup))

/-- Success-path value of `constraintLine`. -/
def constraintLinePure (s t : DB) (tb : String) : Bool × String :=
  let source_constraints := exceptD [] (s.constraints tb)
  let target_constraints := exceptD [] (t.constraints tb)
  if pkCount source_constraints == pkCount target_constraints then
    (true, "✓ " ++ tb ++ ": Constraints present")
  else
    (false, "✗ " ++ tb ++ ": Primary key mismatch")

/-- Source database used by the C6 witness: one table `x` with 5 rows. -/
def dbRow5 : DB :=
  { dbEmpty with tables := .ok ["x"], rowCount := fun _ => .ok 5 }

/-- Target database used by the C6 witness: any table counts 5 rows. -/
def dbRow5T : DB :=
  { dbEmpty with rowCount := fun _ => .ok 5 }

/-- `integer` column named `id` with the given nullability, for the C7
witness. -/
def colIdInt (nul : String) : Column :=
  { name := "id", type := "integer", max_length := Option.none,
    nullable := nul, dflt := Option.none }

/-- Source database used by the C7 witness: every table has a non-nullable
`id integer` column. -/
def dbSchemaNO : DB :=
  { dbEmpty with schema := fun _ => .ok [colIdInt "NO"] }

/-- Target database used by the C7 witness: same column but nullable. -/
def dbSchemaYES : DB :=
  { dbEmpty with schema := fun _ => .ok [colIdInt "YES"] }

/-- PRIMARY KEY constraint row for the C8 witness. -/
def pkRow : Constraint :=
  { name := "p", type := "PRIMARY KEY", column := "id" }

/-- FOREIGN KEY constraint row for the C8 witness. -/
def fkRow : Constraint :=
  { name := "f", type := "FOREIGN KEY", column := "uid" }

/-- Source database used by the C8 witness: one PRIMARY KEY row and one
FOREIGN KEY row per table. -/
def dbConSrc : DB :=
  { dbEmpty with constraints := fun _ => .ok [pkRow, fkRow] }

/-- Target database used by the C8 witness: one PRIMARY KEY row per table. -/
def dbConTgt : DB :=
  { dbEmpty with constraints := fun _ => .ok [pkRow] }

/-- The five check names in the fixed execution order of
`run_all_validations`. -/
def checkNames : List String :=
  ["Table Existence", "Row Counts", "Schema Structure", "Constraints",
   "Data Integrity"]

/-- The i-th check function executed by `run_all_validations` (with the
default sample size 1000 that the orchestrator's call passes). -/
def nthCheck (md5 : String → String) (s t : DB) :
    Nat → Except String ValidationResult
  | 0 => validate_table_existence s t
  | 1 => validate_row_counts s t
  | 2 => validate_schemas s t
  | 3 => validate_constraints s t
  | _ => validate_data_integrity md5 s t 1000

/-- A database whose table-list query fails (e.g. unreachable server); used
by the C2 witness. -/
def dbDown : DB :=
  { dbEmpty with tables := .error "down" }

/-- Source database for the C1 counterexample: two tables `a`, `b`; the
source-side row-count query raises for `a` and succeeds for `b`. -/
def srcRowErr : DB :=
  { dbEmpty with
    tables := .ok ["a", "b"]
    rowCount := fun tb => if tb = "a" then .error "boom" else .ok 1 }

/-- Target database for the C1 counterexample: table list and all row counts
succeed. -/
def tgtRowOk : DB :=
  { dbEmpty with tables := .ok ["a", "b"], rowCount := fun _ => .ok 1 }

theorem rowCountLine_eval (s t : DB) (tb : String)
    (h : isOkB (s.rowCount tb) = true) :
    rowCountLine s t tb = .ok (rowCountLinePure s t tb) := by
  cases hc : s.rowCount tb with
  | error e => rw [hc] at h; exact absurd h (by simp [isOkB])
  | ok n =>
    simp [rowCountLine, rowCountLinePure, hc, exceptD, Bind.bind, Except.bind,
      Pure.pure, Except.pure]

theorem schemaLine_eval (s t : DB) (tb : String)
    (h : isOkB (s.schema tb) = true) :
    schemaLine s t tb = .ok (schemaLinePure s t tb) := by
  cases hc : s.schema tb with
  | error e => rw [hc] at h; exact absurd h (by simp [isOkB])
  | ok cols =>
    simp only [schemaLine, schemaLinePure, hc, exceptD, Bind.bind, Except.bind]
    split <;> rfl

theorem constraintLine_eval (s t : DB) (tb : String)
    (h : isOkB (s.constraints tb) = true) :
    constraintLine s t tb = .ok (constraintLinePure s t tb) := by
  cases hc : s.constraints tb with
  | error e => rw [hc] at h; exact absurd h (by simp [isOkB])
  | ok cs =>
    simp only [constraintLine, constraintLinePure, hc, exceptD, Bind.bind,
      Except.bind]
    split <;> rfl

/-- `checkLoop` on tables whose line computation succeeds with value `f tb`
collects the conjunction of the flags and the detail lines in order. -/
theorem checkLoop_eval (line : String → Except String (Bool × String))
    (f : String → Bool × String) :
    ∀ l : List String, (∀ tb ∈ l, line tb = .ok (f tb)) →
      checkLoop line l =
        .ok (l.all (fun tb => (f tb).1), l.map (fun tb => (f tb).2))
  | [], _ => rfl
  | tb :: rest, h => by
    have htb : line tb = .ok (f tb) := h tb (List.mem_cons_self tb rest)
    have hrest := checkLoop_eval line f rest
      (fun x hx => h x (List.mem_cons_of_mem tb hx))
    simp [checkLoop, htb, hrest, Bind.bind, Except.bind, Pure.pure,
      Except.pure, List.all_cons]

/-- A key outside the first components of an association list has no
binding. -/
theorem lookup_eq_none_of_not_mem_fst (k : String) :
    ∀ l : List (String × String), k ∉ l.map Prod.fst →
      List.lookup k l = Option.none
  | [], _ => rfl
  | (k1, v) :: rest, h => by
    have h1 : ¬ k = k1 := by
      intro hk; exact h (by simp [hk])
    have h2 : k ∉ rest.map Prod.fst := by
      intro hk; exact h (by simp [hk])
    have hb : (k == k1) = false := by
      simpa using h1
    simp [List.lookup, hb, lookup_eq_none_of_not_mem_fst k rest h2]

/-- `dlookup` misses every key outside the dict's key list. -/
theorem dlookup_eq_none_of_not_mem_fst (k : String)
    (l : List (String × String)) (h : k ∉ l.map Prod.fst) :
    dlookup l k = Option.none := by
  apply lookup_eq_none_of_not_mem_fst
  simpa [List.map_reverse] using h

/-- Correctness of the Python dict comparison: two name→type dicts compare
equal exactly when they bind the same keys to the same values. -/
theorem dictEqb_iff (a b : List (String × String)) :
    dictEqb a b = true ↔ ∀ k, dlookup a k = dlookup b k := by
  constructor
  · intro h k
    by_cases hk : k ∈ a.map Prod.fst ++ b.map Prod.fst
    · have := List.all_eq_true.mp h k hk
      simpa using this
    · rw [List.mem_append] at hk
      push_neg at hk
      rw [dlookup_eq_none_of_not_mem_fst k a hk.1,
        dlookup_eq_none_of_not_mem_fst k b hk.2]
  · intro h
    apply List.all_eq_true.mpr
    intro k _
    simp [h k]

theorem validate_table_existence_shape (s t : DB) :
    (∃ e, validate_table_existence s t = .error e) ∨
    ∃ r, validate_table_existence s t = .ok r ∧
      r.check_name = "Table Existence" := by
  cases hs : s.tables with
  | error e =>
    exact Or.inl ⟨e, by simp [validate_table_existence, hs, Bind.bind,
      Except.bind]⟩
  | ok sl =>
    cases ht : t.tables with
    | error e =>
      exact Or.inl ⟨e, by simp [validate_table_existence, hs, ht, Bind.bind,
        Except.bind]⟩
    | ok tl =>
      have h : validate_table_existence s t = .ok
          { check_name := "Table Existence"
            passed := (missingTables sl.dedup tl.dedup).length == 0
            source_value := .strList sl.dedup
            target_value := .strList tl.dedup
            message := tableExistenceMessage sl.dedup tl.dedup } := by
        simp [validate_table_existence, hs, ht, Bind.bind, Except.bind,
          Pure.pure, Except.pure]
      exact Or.inr ⟨_, h, rfl⟩

theorem validate_row_counts_shape (s t : DB) :
    (∃ e, validate_row_counts s t = .error e) ∨
    ∃ b ds, validate_row_counts s t = .ok
      { check_name := "Row Counts", passed := b,
        source_value := .strList ds, target_value := .none,
        message := if b then "All row counts match"
                   else "Row count mismatch detected" } := by
  cases hs : s.tables with
  | error e =>
    exact Or.inl ⟨e, by simp [validate_row_counts, hs, Bind.bind,
      Except.bind]⟩
  | ok ts =>
    cases hl : checkLoop (rowCountLine s t) ts with
    | error e =>
      exact Or.inl ⟨e, by simp [validate_row_counts, hs, hl, Bind.bind,
        Except.bind]⟩
    | ok p =>
      refine Or.inr ⟨p.1, p.2, ?_⟩
      simp [validate_row_counts, hs, hl, Bind.bind, Except.bind,
        Pure.pure, Except.pure]

theorem validate_schemas_shape (s t : DB) :
    (∃ e, validate_schemas s t = .error e) ∨
    ∃ b ds, validate_schemas s t = .ok
      { check_name := "Schema Structure", passed := b,
        source_value := .strList ds, target_value := .none,
        message := if b then "All schemas match"
                   else "Schema differences detected" } := by
  cases hs : s.tables with
  | error e =>
    exact Or.inl ⟨e, by simp [validate_schemas, hs, Bind.bind, Except.bind]⟩
  | ok ts =>
    cases hl : checkLoop (schemaLine s t) ts with
    | error e =>
      exact Or.inl ⟨e, by simp [validate_schemas, hs, hl, Bind.bind,
        Except.bind]⟩
    | ok p =>
      refine Or.inr ⟨p.1, p.2, ?_⟩
      simp [validate_schemas, hs, hl, Bind.bind, Except.bind,
        Pure.pure, Except.pure]

theorem validate_constraints_shape (s t : DB) :
    (∃ e, validate_constraints s t = .error e) ∨
    ∃ b ds, validate_constraints s t = .ok
      { check_name := "Constraints", passed := b,
        source_value := .strList ds, target_value := .none,
        message := if b then "All constraints present"
                   else "Missing constraints detected" } := by
  cases hs : s.tables with
  | error e =>
    exact Or.inl ⟨e, by simp [validate_constraints, hs, Bind.bind,
      Except.bind]⟩
  | ok ts =>
    cases hl : checkLoop (constraintLine s t) ts with
    | error e =>
      exact Or.inl ⟨e, by simp [validate_constraints, hs, hl, Bind.bind,
        Except.bind]⟩
    | ok p =>
      refine Or.inr ⟨p.1, p.2, ?_⟩
      simp [validate_constraints, hs, hl, Bind.bind, Except.bind,
        Pure.pure, Except.pure]

theorem validate_data_integrity_shape (md5 : String → String) (s t : DB)
    (n : Nat) :
    (∃ e, validate_data_integrity md5 s t n = .error e) ∨
    ∃ b ds, validate_data_integrity md5 s t n = .ok
      { check_name := "Data Integrity", passed := b,
        source_value := .strList ds, target_value := .none,
        message := if b then "Data integrity verified"
                   else "Data integrity issues detected" } := by
  cases hs : s.tables with
  | error e =>
    exact Or.inl ⟨e, by simp [validate_data_integrity, hs, Bind.bind,
      Except.bind]⟩
  | ok ts =>
    refine Or.inr ⟨(ts.map (integrityLine md5 s t n)).all (fun p => p.1),
      (ts.map (integrityLine md5 s t n)).map (fun p => p.2), ?_⟩
    simp [validate_data_integrity, hs, Bind.bind, Except.bind,
      Pure.pure, Except.pure]

/-- C3 counterexample: for a table with a composite (two-column) primary key,
`get_data_checksum` does NOT fall back to the unordered sampling query — the
`fetchone()` on the primary-key lookup returns the first of the two column
rows, which is truthy, so the ordered branch is taken with that first column.
The claim's assertion that a composite primary key yields a query with no
explicit ORDER BY is therefore false at this input. -/
theorem C3_counterexample :
    buildSampleQuery ["id", "created_at"] "events" 1000 =
      SampleQuery.ordered "events" "id" 1000 ∧
    buildSampleQuery ["id", "created_at"] "events" 1000 ≠
      SampleQuery.unordered "events" 1000 := by
  constructor
  · rfl
  · intro h
    simp [buildSampleQuery] at h

/-- C3 (amended): the checksum sampler selects all rows of the table with the
given LIMIT; it orders by the FIRST column returned by the primary-key lookup
whenever that lookup returns at least one row (single-column primary keys in
particular), and omits the ORDER BY only when the lookup returns no rows
(no primary key at all). -/
theorem C3_sampler_query (md5 : String → String) (db : DB) (table : String)
    (lim : Nat) (pkRows : List String)
    (hpk : db.pkColumns table = .ok pkRows) :
    (get_data_checksum md5 db table lim =
       Except.map (fun rows => md5 (pyStr rows))
         (db.fetch (buildSampleQuery pkRows table lim))) ∧
    (∀ pk rest, pkRows = pk :: rest →
       buildSampleQuery pkRows table lim = .ordered table pk lim) ∧
    (pkRows = [] → buildSampleQuery pkRows table lim = .unordered table lim) := by
  refine ⟨?_, ?_, ?_⟩
  · cases hf : db.fetch (buildSampleQuery pkRows table lim) with
    | error e =>
      simp [get_data_checksum, hpk, hf, Bind.bind, Except.bind, Except.map]
    | ok rows =>
      simp [get_data_checksum, hpk, hf, Bind.bind, Except.bind, Pure.pure,
        Except.pure, Except.map]
  · intro pk rest h
    subst h
    rfl
  · intro h
    subst h
    rfl

/-- C3 witness: instantiation of the amended sampler theorem on a concrete
database with no primary key. -/
theorem C3_sampler_query_witness :
    get_data_checksum (fun x => x) dbEmpty "t" 10 =
      Except.map (fun rows => (fun x : String => x) (pyStr rows))
        (dbEmpty.fetch (buildSampleQuery [] "t" 10)) :=
  (C3_sampler_query (fun x => x) dbEmpty "t" 10 [] rfl).1

/-- C4: when both databases connect and the run completes, the process exit
code is 0 iff every `ValidationResult` of the run passed, and 1 otherwise. -/
theorem C4_exit_code (md5 : String → String) (s t : DB) :
    (mainExitCode md5 s t = 0 ↔
       ∀ r ∈ run_all_validations md5 [] s t, r.passed = true) ∧
    (mainExitCode md5 s t = 1 ↔
       ¬ ∀ r ∈ run_all_validations md5 [] s t, r.passed = true) := by
  by_cases h : (run_all_validations md5 [] s t).all (fun r => r.passed) = true
  · have hall := List.all_eq_true.mp h
    constructor <;> simpa [mainExitCode, exitCode, h] using hall
  · have hnall : ¬ ∀ r ∈ run_all_validations md5 [] s t, r.passed = true :=
      fun hall => h (List.all_eq_true.mpr hall)
    constructor <;> simpa [mainExitCode, exitCode, h] using hnall

/-- C9: `run_all_validations` is a pure function of the two databases'
responses, so a second run against unchanged databases appends five results
whose passed flags and messages are identical to the first run's. -/
theorem C9_two_runs_identical (md5 : String → String) (s t : DB) :
    ((run_all_validations md5 (run_all_validations md5 [] s t) s t).drop
        (run_all_validations md5 [] s t).length).map (fun r => r.passed) =
      (run_all_validations md5 [] s t).map (fun r => r.passed) ∧
    ((run_all_validations md5 (run_all_validations md5 [] s t) s t).drop
        (run_all_validations md5 [] s t).length).map (fun r => r.message) =
      (run_all_validations md5 [] s t).map (fun r => r.message) := by
  constructor <;> simp [run_all_validations]

/-- C5: the Table Existence check computes `missing` as source minus target
and passes iff `missing` is empty, which holds iff every source table is
present in the target; tables present only in the target never fail the
check. -/
theorem C5_table_existence (s t : DB) (sts tts : List String)
    (hs : s.tables = .ok sts) (ht : t.tables = .ok tts) :
    ∃ r, validate_table_existence s t = .ok r ∧
      (r.passed = true ↔ missingTables sts.dedup tts.dedup = []) ∧
      (missingTables sts.dedup tts.dedup = [] ↔ ∀ x ∈ sts, x ∈ tts) ∧
      (r.passed = true ↔ ∀ x ∈ sts, x ∈ tts) := by
  have h : validate_table_existence s t = .ok
      { check_name := "Table Existence"
        passed := (missingTables sts.dedup tts.dedup).length == 0
        source_value := .strList sts.dedup
        target_value := .strList tts.dedup
        message := tableExistenceMessage sts.dedup tts.dedup } := by
    simp [validate_table_existence, hs, ht, Bind.bind, Except.bind,
      Pure.pure, Except.pure]
  have hmiss : missingTables sts.dedup tts.dedup = [] ↔ ∀ x ∈ sts, x ∈ tts := by
    simp [missingTables, List.filter_eq_nil_iff, List.mem_dedup]
  have hpass : ((missingTables sts.dedup tts.dedup).length == 0) = true ↔
      missingTables sts.dedup tts.dedup = [] := by
    simp [List.length_eq_zero]
  exact ⟨_, h, hpass, hmiss, hpass.trans hmiss⟩

/-- C5 witness: source tables `a`,`b`; target has `a`,`b` and the extra `c`;
the check passes. -/
theorem C5_table_existence_witness :
    ∃ r, validate_table_existence { dbEmpty with tables := .ok ["a", "b"] }
        { dbEmpty with tables := .ok ["a", "b", "c"] } = .ok r ∧
      (r.passed = true ↔ missingTables ["a", "b"].dedup ["a", "b", "c"].dedup = []) ∧
      (missingTables ["a", "b"].dedup ["a", "b", "c"].dedup = [] ↔
        ∀ x ∈ ["a", "b"], x ∈ ["a", "b", "c"]) ∧
      (r.passed = true ↔ ∀ x ∈ ["a", "b"], x ∈ ["a", "b", "c"]) :=
  C5_table_existence _ _ ["a", "b"] ["a", "b", "c"] rfl rfl

/-- C10: the Table Existence message reports the missing tables whenever any
exist; extra target tables are mentioned only when nothing is missing. -/
theorem C10_message_priority (s t : DB) (sts tts : List String)
    (hs : s.tables = .ok sts) (ht : t.tables = .ok tts) :
    ∃ r, validate_table_existence s t = .ok r ∧
      (missingTables sts.dedup tts.dedup ≠ [] →
        r.message = "Missing tables in target: " ++
          String.intercalate ", " (missingTables sts.dedup tts.dedup)) ∧
      (missingTables sts.dedup tts.dedup = [] →
        extraTables sts.dedup tts.dedup ≠ [] →
        r.message = "Extra tables in target (OK): " ++
          String.intercalate ", " (extraTables sts.dedup tts.dedup)) ∧
      (missingTables sts.dedup tts.dedup = [] →
        extraTables sts.dedup tts.dedup = [] →
        r.message = "All " ++ toString sts.dedup.length ++
          " tables present in both databases") := by
  have h : validate_table_existence s t = .ok
      { check_name := "Table Existence"
        passed := (missingTables sts.dedup tts.dedup).length == 0
        source_value := .strList sts.dedup
        target_value := .strList tts.dedup
        message := tableExistenceMessage sts.dedup tts.dedup } := by
    simp [validate_table_existence, hs, ht, Bind.bind, Except.bind,
      Pure.pure, Except.pure]
  refine ⟨_, h, ?_, ?_, ?_⟩
  · intro hm
    simp [tableExistenceMessage, hm]
  · intro hm hx
    simp [tableExistenceMessage, hm, hx]
  · intro hm hx
    simp [tableExistenceMessage, hm, hx]

/-- C10 witness: source `a`,`b`; target only `b`,`c` — `a` is missing and
`c` is extra, and the message reports only the missing table. -/
theorem C10_message_priority_witness :
    ∃ r, validate_table_existence { dbEmpty with tables := .ok ["a", "b"] }
        { dbEmpty with tables := .ok ["b", "c"] } = .ok r ∧
      (missingTables ["a", "b"].dedup ["b", "c"].dedup ≠ [] →
        r.message = "Missing tables in target: " ++
          String.intercalate ", " (missingTables ["a", "b"].dedup ["b", "c"].dedup)) ∧
      (missingTables ["a", "b"].dedup ["b", "c"].dedup = [] →
        extraTables ["a", "b"].dedup ["b", "c"].dedup ≠ [] →
        r.message = "Extra tables in target (OK): " ++
          String.intercalate ", " (extraTables ["a", "b"].dedup ["b", "c"].dedup)) ∧
      (missingTables ["a", "b"].dedup ["b", "c"].dedup = [] →
        extraTables ["a", "b"].dedup ["b", "c"].dedup = [] →
        r.message = "All " ++ toString (["a", "b"].dedup).length ++
          " tables present in both databases") :=
  C10_message_priority _ _ ["a", "b"] ["b", "c"] rfl rfl

/-- Reduction of `exceptD` on a success. -/
theorem exceptD_ok {α : Type} (d a : α) :
    exceptD d (Except.ok a) = a := rfl

/-- Reduction of `exceptD` on a failure. -/
theorem exceptD_error {α : Type} (d : α) (e : String) :
    exceptD d (Except.error e) = d := rfl

/-- C6: the Row Counts check iterates over the source table list only (its
result does not depend on the target's table list); whenever all source-side
count queries succeed, it returns a result that passes iff every source
table's source count equals its target count, where an erroring target-side
count is taken to be 0. -/
theorem C6_row_counts (s t : DB) (ts : List String)
    (hs : s.tables = .ok ts)
    (hok : ∀ tb ∈ ts, isOkB (s.rowCount tb) = true) :
    (∃ r, validate_row_counts s t = .ok r ∧
       r.passed = ts.all (fun tb =>
         exceptD 0 (s.rowCount tb) == exceptD 0 (t.rowCount tb))) ∧
    (∀ tts, validate_row_counts s { t with tables := tts } =
       validate_row_counts s t) ∧
    (∀ tb e, t.rowCount tb = .error e → exceptD 0 (t.rowCount tb) = 0) := by
  refine ⟨?_, fun tts => rfl, fun tb e he => by rw [he, exceptD_error]⟩
  have hloop := checkLoop_eval (rowCountLine s t) (rowCountLinePure s t) ts
    (fun tb htb => rowCountLine_eval s t tb (hok tb htb))
  have hres : validate_row_counts s t = .ok
      { check_name := "Row Counts"
        passed := ts.all (fun tb => (rowCountLinePure s t tb).1)
        source_value := .strList (ts.map (fun tb => (rowCountLinePure s t tb).2))
        target_value := .none
        message := if ts.all (fun tb => (rowCountLinePure s t tb).1)
                   then "All row counts match"
                   else "Row count mismatch detected" } := by
    simp [validate_row_counts, hs, hloop, Bind.bind, Except.bind,
      Pure.pure, Except.pure]
  refine ⟨_, hres, ?_⟩
  simp [rowCountLinePure]

/-- C6 witness: one source table with equal counts on both sides. -/
theorem C6_row_counts_witness :
    (∃ r, validate_row_counts dbRow5 dbRow5T = .ok r ∧
       r.passed = (["x"].all (fun tb =>
         exceptD 0 (dbRow5.rowCount tb) == exceptD 0 (dbRow5T.rowCount tb)))) ∧
    (∀ tts, validate_row_counts dbRow5 { dbRow5T with tables := tts } =
       validate_row_counts dbRow5 dbRow5T) ∧
    (∀ tb e, dbRow5T.rowCount tb = .error e →
       exceptD 0 (dbRow5T.rowCount tb) = 0) :=
  C6_row_counts dbRow5 dbRow5T ["x"] rfl (fun _ _ => rfl)

/-- C7: in the Schema Structure check the per-table verdict is exactly the
Python dict equality of the two name→data_type mappings; mapping equality is
pointwise lookup equality (so added/missing/renamed/retyped columns always
break it); any change confined to max_length/nullable/default leaves the
mapping, hence the verdict, unchanged; an erroring (absent) target table is
compared as the empty mapping. -/
theorem C7_schema_criterion (s t : DB) (tb : String) (src : List Column)
    (hsrc : s.schema tb = .ok src) :
    (schemaLine s t tb = .ok (schemaLinePure s t tb)) ∧
    ((schemaLinePure s t tb).1 =
       dictEqb (toDict src) (toDict (exceptD [] (t.schema tb)))) ∧
    (dictEqb (toDict src) (toDict (exceptD [] (t.schema tb))) = true ↔
       ∀ k, dlookup (toDict src) k =
         dlookup (toDict (exceptD [] (t.schema tb))) k) ∧
    (∀ tgt2 : List Column, toDict (exceptD [] (t.schema tb)) = toDict tgt2 →
       dictEqb (toDict src) (toDict (exceptD [] (t.schema tb))) =
         dictEqb (toDict src) (toDict tgt2)) ∧
    (∀ e, t.schema tb = .error e →
       (schemaLinePure s t tb).1 = dictEqb (toDict src) (toDict [])) := by
  have hone : (schemaLinePure s t tb).1 =
      dictEqb (toDict src) (toDict (exceptD [] (t.schema tb))) := by
    rw [schemaLinePure, hsrc, exceptD_ok]
    split
    · rename_i hcond
      exact hcond.symm
    · rename_i hcond
      simp only [Bool.not_eq_true] at hcond
      exact hcond.symm
  refine ⟨schemaLine_eval s t tb (by rw [hsrc]; rfl), hone,
    dictEqb_iff _ _, fun tgt2 h2 => by rw [h2], fun e he => ?_⟩
  rw [hone, he, exceptD_error]

/-- C7 witness: source column `id:integer NOT NULL`; target has the same
name and type but different nullability — the schemas match. -/
theorem C7_schema_criterion_witness :
    (schemaLine dbSchemaNO dbSchemaYES "u" =
       .ok (schemaLinePure dbSchemaNO dbSchemaYES "u")) ∧
    ((schemaLinePure dbSchemaNO dbSchemaYES "u").1 =
       dictEqb (toDict [colIdInt "NO"])
         (toDict (exceptD [] (dbSchemaYES.schema "u")))) ∧
    (dictEqb (toDict [colIdInt "NO"])
        (toDict (exceptD [] (dbSchemaYES.schema "u"))) = true ↔
       ∀ k, dlookup (toDict [colIdInt "NO"]) k =
         dlookup (toDict (exceptD [] (dbSchemaYES.schema "u"))) k) ∧
    (∀ tgt2 : List Column,
       toDict (exceptD [] (dbSchemaYES.schema "u")) = toDict tgt2 →
       dictEqb (toDict [colIdInt "NO"])
           (toDict (exceptD [] (dbSchemaYES.schema "u"))) =
         dictEqb (toDict [colIdInt "NO"]) (toDict tgt2)) ∧
    (∀ e, dbSchemaYES.schema "u" = .error e →
       (schemaLinePure dbSchemaNO dbSchemaYES "u").1 =
         dictEqb (toDict [colIdInt "NO"]) (toDict [])) :=
  C7_schema_criterion dbSchemaNO dbSchemaYES "u" [colIdInt "NO"] rfl

/-- C8: in the Constraints check the per-table verdict compares only the
number of PRIMARY KEY constraint rows of the two sides; constraint rows of
any other kind never change the verdict, and an erroring (missing) target
table is compared as the empty constraint list, so it matches exactly when
the source table has no PRIMARY KEY rows. -/
theorem C8_constraints_criterion (s t : DB) (tb : String)
    (src : List Constraint) (hsrc : s.constraints tb = .ok src) :
    (constraintLine s t tb = .ok (constraintLinePure s t tb)) ∧
    ((constraintLinePure s t tb).1 =
       (pkCount src == pkCount (exceptD [] (t.constraints tb)))) ∧
    (∀ c : Constraint, ¬ c.type = "PRIMARY KEY" →
       ∀ cs : List Constraint, pkCount (c :: cs) = pkCount cs) ∧
    (∀ e, t.constraints tb = .error e →
       ((constraintLinePure s t tb).1 = true ↔ pkCount src = 0)) := by
  have hone : (constraintLinePure s t tb).1 =
      (pkCount src == pkCount (exceptD [] (t.constraints tb))) := by
    rw [constraintLinePure, hsrc, exceptD_ok]
    split
    · rename_i hcond
      simp [hcond]
    · rename_i hcond
      simp only [beq_eq_false_iff_ne, ne_eq]
      simpa using fun h => hcond (by simpa using h)
  refine ⟨constraintLine_eval s t tb (by rw [hsrc]; rfl), hone,
    fun c hc cs => ?_, fun e he => ?_⟩
  · simp [pkCount, List.filter_cons, hc]
  · rw [hone, he, exceptD_error]
    simp [pkCount]

/-- C8 witness: source has one PRIMARY KEY and one FOREIGN KEY row, the
target only the PRIMARY KEY row — the table matches. -/
theorem C8_constraints_criterion_witness :
    (constraintLine dbConSrc dbConTgt "u" =
       .ok (constraintLinePure dbConSrc dbConTgt "u")) ∧
    ((constraintLinePure dbConSrc dbConTgt "u").1 =
       (pkCount [pkRow, fkRow] ==
        pkCount (exceptD [] (dbConTgt.constraints "u")))) ∧
    (∀ c : Constraint, ¬ c.type = "PRIMARY KEY" →
       ∀ cs : List Constraint, pkCount (c :: cs) = pkCount cs) ∧
    (∀ e, dbConTgt.constraints "u" = .error e →
       ((constraintLinePure dbConSrc dbConTgt "u").1 = true ↔
         pkCount [pkRow, fkRow] = 0)) :=
  C8_constraints_criterion dbConSrc dbConTgt "u" [pkRow, fkRow] rfl

theorem runCheck_table_existence_name (s t : DB) :
    (runCheck "Table Existence" (validate_table_existence s t)).check_name =
      "Table Existence" := by
  rcases validate_table_existence_shape s t with ⟨e, he⟩ | ⟨r, hr, hn⟩
  · rw [he]; rfl
  · rw [hr]; exact hn

theorem runCheck_row_counts_name (s t : DB) :
    (runCheck "Row Counts" (validate_row_counts s t)).check_name =
      "Row Counts" := by
  rcases validate_row_counts_shape s t with ⟨e, he⟩ | ⟨b, ds, hr⟩
  · rw [he]; rfl
  · rw [hr]; rfl

theorem runCheck_schemas_name (s t : DB) :
    (runCheck "Schema Structure" (validate_schemas s t)).check_name =
      "Schema Structure" := by
  rcases validate_schemas_shape s t with ⟨e, he⟩ | ⟨b, ds, hr⟩
  · rw [he]; rfl
  · rw [hr]; rfl

theorem runCheck_constraints_name (s t : DB) :
    (runCheck "Constraints" (validate_constraints s t)).check_name =
      "Constraints" := by
  rcases validate_constraints_shape s t with ⟨e, he⟩ | ⟨b, ds, hr⟩
  · rw [he]; rfl
  · rw [hr]; rfl

theorem runCheck_data_integrity_name (md5 : String → String) (s t : DB) :
    (runCheck "Data Integrity"
        (validate_data_integrity md5 s t 1000)).check_name =
      "Data Integrity" := by
  rcases validate_data_integrity_shape md5 s t 1000 with ⟨e, he⟩ | ⟨b, ds, hr⟩
  · rw [he]; rfl
  · rw [hr]; rfl

/-- C2: `run_all_validations` (a total function: it never raises) returns
exactly one result per check, five in total, named in the fixed order
Table Existence, Row Counts, Schema Structure, Constraints, Data Integrity;
and whenever the i-th check raises, the i-th result is the failed
`ValidationResult` named after that check whose message carries the
exception's message. -/
theorem C2_run_all_shape (md5 : String → String) (s t : DB) :
    (run_all_validations md5 [] s t).map ValidationResult.check_name =
      checkNames ∧
    (∀ i, i < 5 → ∀ e, nthCheck md5 s t i = .error e →
      (run_all_validations md5 [] s t).get? i = some
        { check_name := checkNames.getD i "", passed := false,
          source_value := .none, target_value := .none,
          message := "Error: " ++ e }) := by
  constructor
  · simp only [run_all_validations, List.nil_append, List.map_cons,
      List.map_nil]
    rw [checkNames]
    rw [runCheck_table_existence_name, runCheck_row_counts_name,
      runCheck_schemas_name, runCheck_constraints_name,
      runCheck_data_integrity_name]
  · intro i hi e he
    interval_cases i
    · rw [show nthCheck md5 s t 0 = validate_table_existence s t from rfl]
        at he
      simp [run_all_validations, runCheck, he, checkNames]
    · rw [show nthCheck md5 s t 1 = validate_row_counts s t from rfl] at he
      simp [run_all_validations, runCheck, he, checkNames]
    · rw [show nthCheck md5 s t 2 = validate_schemas s t from rfl] at he
      simp [run_all_validations, runCheck, he, checkNames]
    · rw [show nthCheck md5 s t 3 = validate_constraints s t from rfl] at he
      simp [run_all_validations, runCheck, he, checkNames]
    · rw [show nthCheck md5 s t 4 = validate_data_integrity md5 s t 1000
          from rfl] at he
      simp [run_all_validations, runCheck, he, checkNames]

/-- C2 witness: with a source whose `get_tables` raises, the first result of
the run is the failed Table Existence result carrying the error message. -/
theorem C2_run_all_shape_witness :
    (run_all_validations (fun x => x) [] dbDown dbEmpty).get? 0 = some
      { check_name := checkNames.getD 0 "", passed := false,
        source_value := .none, target_value := .none,
        message := "Error: " ++ "down" } :=
  (C2_run_all_shape (fun x => x) dbDown dbEmpty).2 0 (by decide) "down" rfl

/-- C1 counterexample: in the Row Counts check, a source-side per-table
error for table `a` aborts the iteration — `validate_row_counts` raises, the
orchestrator converts the whole check to a single failed result with NO
per-table detail lines, so table `b`'s detail line does not appear, contrary
to the claim that remaining tables' lines are still computed. -/
theorem C1_counterexample :
    validate_row_counts srcRowErr tgtRowOk = .error "boom" ∧
    runCheck "Row Counts" (validate_row_counts srcRowErr tgtRowOk) =
      { check_name := "Row Counts", passed := false, source_value := .none,
        target_value := .none, message := "Error: boom" } := by
  constructor
  · rfl
  · rfl

/-- C1 (amended): only the Data Integrity check tolerates arbitrary per-table
errors: it always returns one result with one detail line per source table,
and is marked failed when any table's line failed.  The Row Counts, Schema
Structure and Constraints checks tolerate per-table errors only on the
TARGET side (the target database here is unconstrained): provided every
SOURCE-side per-table query succeeds, they return one result with one detail
line per source table; a source-side error instead aborts the check's
iteration (see the counterexample). -/
theorem C1_per_table_degradation (md5 : String → String) (s t : DB)
    (ts : List String) (hs : s.tables = .ok ts) :
    (∃ r, validate_data_integrity md5 s t 1000 = .ok r ∧
       pyLen r.source_value = ts.length ∧
       ((∃ tb ∈ ts, (integrityLine md5 s t 1000 tb).1 = false) →
         r.passed = false)) ∧
    ((∀ tb ∈ ts, isOkB (s.rowCount tb) = true) →
       ∃ r, validate_row_counts s t = .ok r ∧
         pyLen r.source_value = ts.length) ∧
    ((∀ tb ∈ ts, isOkB (s.schema tb) = true) →
       ∃ r, validate_schemas s t = .ok r ∧
         pyLen r.source_value = ts.length) ∧
    ((∀ tb ∈ ts, isOkB (s.constraints tb) = true) →
       ∃ r, validate_constraints s t = .ok r ∧
         pyLen r.source_value = ts.length) := by
  refine ⟨?_, ?_, ?_, ?_⟩
  · have hres : validate_data_integrity md5 s t 1000 = .ok
        { check_name := "Data Integrity"
          passed := (ts.map (integrityLine md5 s t 1000)).all (fun p => p.1)
          source_value := .strList
            ((ts.map (integrityLine md5 s t 1000)).map (fun p => p.2))
          target_value := .none
          message :=
            if (ts.map (integrityLine md5 s t 1000)).all (fun p => p.1)
            then "Data integrity verified"
            else "Data integrity issues detected" } := by
      simp [validate_data_integrity, hs, Bind.bind, Except.bind,
        Pure.pure, Except.pure]
    refine ⟨_, hres, by simp [pyLen], ?_⟩
    rintro ⟨tb, htb, hfalse⟩
    apply List.all_eq_false.mpr
    exact ⟨integrityLine md5 s t 1000 tb,
      List.mem_map_of_mem _ htb, by simp [hfalse]⟩
  · intro hok
    have hloop := checkLoop_eval (rowCountLine s t) (rowCountLinePure s t) ts
      (fun tb htb => rowCountLine_eval s t tb (hok tb htb))
    have hres : validate_row_counts s t = .ok
        { check_name := "Row Counts"
          passed := ts.all (fun tb => (rowCountLinePure s t tb).1)
          source_value := .strList
            (ts.map (fun tb => (rowCountLinePure s t tb).2))
          target_value := .none
          message := if ts.all (fun tb => (rowCountLinePure s t tb).1)
                     then "All row counts match"
                     else "Row count mismatch detected" } := by
      simp [validate_row_counts, hs, hloop, Bind.bind, Except.bind,
        Pure.pure, Except.pure]
    exact ⟨_, hres, by simp [pyLen]⟩
  · intro hok
    have hloop := checkLoop_eval (schemaLine s t) (schemaLinePure s t) ts
      (fun tb htb => schemaLine_eval s t tb (hok tb htb))
    have hres : validate_schemas s t = .ok
        { check_name := "Schema Structure"
          passed := ts.all (fun tb => (schemaLinePure s t tb).1)
          source_value := .strList
            (ts.map (fun tb => (schemaLinePure s t tb).2))
          target_value := .none
          message := if ts.all (fun tb => (schemaLinePure s t tb).1)
                     then "All schemas match"
                     else "Schema differences detected" } := by
      simp [validate_schemas, hs, hloop, Bind.bind, Except.bind,
        Pure.pure, Except.pure]
    exact ⟨_, hres, by simp [pyLen]⟩
  · intro hok
    have hloop := checkLoop_eval (constraintLine s t) (constraintLinePure s t)
      ts (fun tb htb => constraintLine_eval s t tb (hok tb htb))
    have hres : validate_constraints s t = .ok
        { check_name := "Constraints"
          passed := ts.all (fun tb => (constraintLinePure s t tb).1)
          source_value := .strList
            (ts.map (fun tb => (constraintLinePure s t tb).2))
          target_value := .none
          message := if ts.all (fun tb => (constraintLinePure s t tb).1)
                     then "All constraints present"
                     else "Missing constraints detected" } := by
      simp [validate_constraints, hs, hloop, Bind.bind, Except.bind,
        Pure.pure, Except.pure]
    exact ⟨_, hres, by simp [pyLen]⟩

/-- C1 witness: instantiation of the amended theorem on a concrete source
database with one table whose queries all succeed. -/
theorem C1_per_table_degradation_witness :
    ∃ r, validate_data_integrity (fun x => x) dbRow5 dbEmpty 1000 = .ok r ∧
      pyLen r.source_value = (["x"] : List String).length ∧
      ((∃ tb ∈ (["x"] : List String),
          (integrityLine (fun x => x) dbRow5 dbEmpty 1000 tb).1 = false) →
        r.passed = false) :=
  (C1_per_table_degradation (fun x => x) dbRow5 dbEmpty ["x"] rfl).1

/-- C4 witness: instantiation of the exit-code theorem on concrete
databases. -/
theorem C4_exit_code_witness :
    (mainExitCode (fun x => x) dbEmpty dbEmpty = 0 ↔
       ∀ r ∈ run_all_validations (fun x => x) [] dbEmpty dbEmpty,
         r.passed = true) ∧
    (mainExitCode (fun x => x) dbEmpty dbEmpty = 1 ↔
       ¬ ∀ r ∈ run_all_validations (fun x => x) [] dbEmpty dbEmpty,
         r.passed = true) :=
  C4_exit_code (fun x => x) dbEmpty dbEmpty

end ValidateMigration
